import Mathlib

/-!
Shallow embedding of the badminton-court-monitor core.

The change-detection and notification-formatting engine is taken from
`src/monitor-courts-enhanced.js` (the same `detectChanges` /
`formatNotificationContent` code appears verbatim in
`src/monitor-courts-firebase.js` and in the unnamed Firebase variant).
The chunked snapshot store is taken from `src/monitor-courts-firebase.js`.

JavaScript numeric semantics that matter here are modelled explicitly:
`parseInt` returns either an integer or `NaN`, and every comparison
(`>`, `===`) involving `NaN` is false.
-/

namespace CourtMonitor

/-- A JavaScript number as produced by `parseInt`: an integer or `NaN`. -/
inductive JSNum where
  | nan : JSNum
  | int : Int → JSNum
deriving DecidableEq

/-- The raw value of the `Available_Courts` field of a record in the feed:
absent (the field is missing, `null` or `undefined`), a JSON integer,
or a JSON string. -/
inductive CourtVal where
  | missing : CourtVal
  | num : Int → CourtVal
  | str : String → CourtVal
deriving DecidableEq

/-- Whitespace skipped by JavaScript `parseInt` (main ASCII cases). -/
def jsWhitespace (c : Char) : Bool :=
  c == ' ' || c == '\t' || c == '\n' || c == '\r'

/-- Hexadecimal digit test, for the `0x` radix prefix of `parseInt`. -/
def hexDigit (c : Char) : Bool :=
  c.isDigit || ('a' ≤ c && c ≤ 'f') || ('A' ≤ c && c ≤ 'F')

/-- Value of a (decimal or hexadecimal) digit character. -/
def digitValue (c : Char) : Nat :=
  if c.isDigit then c.toNat - 48
  else if 'a' ≤ c then c.toNat - 87
  else c.toNat - 55

/-- Accumulate a digit list into a natural number in the given base. -/
def digitsToNat (base : Nat) (ds : List Char) : Nat :=
  ds.foldl (fun a c => a * base + digitValue c) 0

/-- Model of JavaScript `parseInt(s)` with the default radix: skip leading
whitespace, read an optional sign, detect a `0x`/`0X` hexadecimal prefix,
then take the longest digit run; an empty digit run yields `NaN`. -/
def jsParseInt (s : String) : JSNum :=
  let cs := s.data.dropWhile jsWhitespace
  let signNeg : Bool := match cs with
    | '-' :: _ => true
    | _ => false
  let cs := match cs with
    | '-' :: rest => rest
    | '+' :: rest => rest
    | _ => cs
  let basecs : Nat × List Char := match cs with
    | '0' :: 'x' :: rest => (16, rest)
    | '0' :: 'X' :: rest => (16, rest)
    | _ => (10, cs)
  let ds := basecs.2.takeWhile (fun c => if basecs.1 = 16 then hexDigit c else c.isDigit)
  if ds.isEmpty then JSNum.nan
  else JSNum.int (if signNeg then -(digitsToNat basecs.1 ds : Int) else (digitsToNat basecs.1 ds : Int))

/-- Model of JavaScript `String.prototype.trim()`: drop whitespace from
both ends (main ASCII cases). -/
def jsTrim (s : String) : String :=
  String.mk (((s.data.dropWhile jsWhitespace).reverse.dropWhile jsWhitespace).reverse)

/-- `parseInt(court.Available_Courts || 0)` (monitor-courts-enhanced.js:104).
A missing/null field, the number `0` and the empty string are falsy, so
`|| 0` replaces them and `parseInt(0) = 0`.  A nonzero integer `n` is
rendered and re-parsed to `n` (integers of the magnitudes in this feed).
Any other string goes through `parseInt`. -/
def parseCount : CourtVal → JSNum
  | CourtVal.missing => JSNum.int 0
  | CourtVal.num n => JSNum.int n
  | CourtVal.str s => if s = "" then JSNum.int 0 else jsParseInt s

/-- One record of the feed, with the fields the monitor reads.
`District_Name_EN` is accessed with optional chaining in the source, so it
is modelled as optional; the other text fields are read directly. -/
structure Court where
  Venue_Name_EN : String
  District_Name_EN : Option String
  Available_Date : String
  Session_Start_Time : String
  Session_End_Time : String
  Available_Courts : CourtVal
deriving DecidableEq

/-- The `type` tag of an emitted change object. -/
inductive ChangeType where
  | new_availability : ChangeType
  | increased_availability : ChangeType
deriving DecidableEq

/-- One change object pushed by `detectChanges`.  The `increase` field is
only present on `increased_availability` objects, hence optional. -/
structure Change where
  type : ChangeType
  venue : String
  district : Option String
  date : String
  time : String
  currentCount : Int
  previousCount : Int
  increase : Option Int
  message : String
deriving DecidableEq

/-- Weekday names used by `formatDate` (index 0 is Sunday, as `getDay`). -/
def dayNames : List String := ["Sun", "Mon", "Tue", "Wed", "Thu", "Fri", "Sat"]

/-- Sakamoto month offsets for the day-of-week computation. -/
def sakamotoTable : List Nat := [0, 3, 2, 5, 0, 3, 5, 1, 4, 6, 2, 4]

/-- Day of week of a Gregorian date, 0 = Sunday, matching `Date.getDay()`
for an ISO date-only string (parsed as UTC midnight; the spec fixes the
date to its timezone-naive calendar form). -/
def dayOfWeek (y m d : Nat) : Nat :=
  let y := if m < 3 then y - 1 else y
  (y + y / 4 - y / 100 + y / 400 + sakamotoTable.getD (m - 1) 0 + d) % 7

/-- Zero-pad a number to two digits, as `String(n).padStart(2, "0")`. -/
def pad2 (n : Nat) : String :=
  if n < 10 then "0" ++ toString n else toString n

/-- Split a character list at each dash, like `String.splitOn "-"`. -/
def splitDash : List Char → List (List Char)
  | [] => [[]]
  | c :: rest =>
      let groups := splitDash rest
      if c = '-' then [] :: groups
      else
        match groups with
        | [] => [[c]]
        | g :: gs => (c :: g) :: gs

/-- Read a nonempty all-decimal character group as a number. -/
def decDigits (cs : List Char) : Option Nat :=
  if cs ≠ [] ∧ cs.all Char.isDigit then some (digitsToNat 10 cs) else none

/-- Model of `formatDate` (monitor-courts-enhanced.js:71): for an ISO
`YYYY-MM-DD` string, render `"{weekday}, {MM}/{DD}"`.  The spec's data
model fixes dates to this ISO shape; other inputs are out of scope. -/
def formatDate (dateString : String) : String :=
  match (splitDash dateString.data).map decDigits with
  | [some y, some m, some d] =>
      dayNames.getD (dayOfWeek y m d) "undefined" ++ ", " ++ pad2 m ++ "/" ++ pad2 d
  | _ => "Invalid Date"

/-- The lookup key built at monitor-courts-enhanced.js:94 and :100:
the template literal `venue-date-sessionStart` (plain string concatenation
with `"-"` separators; the tuple is not kept). -/
def keyOf (court : Court) : String :=
  court.Venue_Name_EN ++ "-" ++ court.Available_Date ++ "-" ++ court.Session_Start_Time

/-- The matched-pair body of the `detectChanges` loop
(monitor-courts-enhanced.js:104-134).  When either `parseInt` result is
`NaN`, both branch conditions (`currentAvailable > 0 &&
previousAvailable === 0`, `currentAvailable > previousAvailable &&
previousAvailable > 0`) are false, because every JavaScript comparison
with `NaN` is false; this is the final catch-all arm. -/
def changeForPair (currentCourt previousCourt : Court) : Option Change :=
  match parseCount currentCourt.Available_Courts, parseCount previousCourt.Available_Courts with
  | JSNum.int currentAvailable, JSNum.int previousAvailable =>
      if currentAvailable > 0 ∧ previousAvailable = 0 then
        some {
          type := ChangeType.new_availability
          venue := currentCourt.Venue_Name_EN
          district := currentCourt.District_Name_EN.map jsTrim
          date := currentCourt.Available_Date
          time := currentCourt.Session_Start_Time ++ "-" ++ currentCourt.Session_End_Time
          currentCount := currentAvailable
          previousCount := 0
          increase := none
          message := "🟢 " ++ currentCourt.Venue_Name_EN ++ "\n   " ++
            formatDate currentCourt.Available_Date ++ " • " ++
            currentCourt.Session_Start_Time ++ "-" ++ currentCourt.Session_End_Time ++
            "\n   Now available: " ++ toString currentAvailable ++ " courts (was 0)" }
      else if currentAvailable > previousAvailable ∧ previousAvailable > 0 then
        some {
          type := ChangeType.increased_availability
          venue := currentCourt.Venue_Name_EN
          district := currentCourt.District_Name_EN.map jsTrim
          date := currentCourt.Available_Date
          time := currentCourt.Session_Start_Time ++ "-" ++ currentCourt.Session_End_Time
          currentCount := currentAvailable
          previousCount := previousAvailable
          increase := some (currentAvailable - previousAvailable)
          message := "🟢 " ++ currentCourt.Venue_Name_EN ++ "\n   " ++
            formatDate currentCourt.Available_Date ++ " • " ++
            currentCourt.Session_Start_Time ++ "-" ++ currentCourt.Session_End_Time ++
            "\n   Now available: " ++ toString currentAvailable ++
            " courts (was " ++ toString previousAvailable ++ ")" }
      else none
  | _, _ => none

/-- One `Map.set` step of building `previousMap`
(monitor-courts-enhanced.js:93-96): setting a key overwrites any earlier
binding of the same key (last write wins).  The map is represented by its
`get` function. -/
def mapStep (previousMap : String → Option Court) (court : Court) : String → Option Court :=
  fun k => if k = keyOf court then some court else previousMap k

/-- `previousMap` after the `previousData.forEach(...)` loop. -/
def buildPreviousMap (previousData : List Court) : String → Option Court :=
  previousData.foldl mapStep (fun _ => none)

/-- One iteration of the `currentData.forEach(...)` loop
(monitor-courts-enhanced.js:99-136): look up the previous slot by key;
on a match, run the classification and push the emitted change, if any. -/
def detectStep (previousMap : String → Option Court) (changes : List Change)
    (currentCourt : Court) : List Change :=
  match previousMap (keyOf currentCourt) with
  | some previousCourt =>
      match changeForPair currentCourt previousCourt with
      | some change => changes ++ [change]
      | none => changes
  | none => changes

/-- `detectChanges(currentData, previousData)`
(monitor-courts-enhanced.js:81-139).  A missing previous dataset
(`!previousData`) is the first run and yields no changes. -/
def detectChanges (currentData : List Court) (previousData : Option (List Court)) : List Change :=
  match previousData with
  | none => []
  | some prevList => currentData.foldl (detectStep (buildPreviousMap prevList)) []

/-- The notification payload `{ title, body, changes }`. -/
structure Notification where
  title : String
  body : String
  changes : List Change
deriving DecidableEq

/-- `formatNotificationContent(changes)`
(monitor-courts-enhanced.js:142-163). -/
def formatNotificationContent (changes : List Change) : Option Notification :=
  match changes with
  | [] => none
  | [change0] =>
      some { title := "🏸 Court Available!", body := change0.message, changes := changes }
  | _ =>
      let title := "🏸 " ++ toString changes.length ++ " Courts Available!"
      let body := String.intercalate "\n\n" ((changes.take 3).map (fun change => change.message))
      let body :=
        if changes.length > 3 then
          body ++ "\n\n... and " ++ toString (changes.length - 3) ++ " more changes"
        else body
      some { title := title, body := body, changes := changes }

/-- Observable outcome of one driver cycle: the stored snapshot after the
cycle and the notification payload emitted between the sentinel lines. -/
structure CycleResult where
  stored : Option (List Court)
  emitted : Option Notification
deriving DecidableEq

/-- `main()` (monitor-courts-enhanced.js:166-208) as a state transition on
the stored snapshot.  `loadPreviousData` yields the stored snapshot (or
none on missing/corrupt state); a failed fetch returns before
`saveCurrentData`; a successful fetch runs detection and formatting and
then unconditionally saves the current dataset. -/
def runCycle (stored : Option (List Court)) (fetched : Option (List Court)) : CycleResult :=
  let previousData := stored
  match fetched with
  | none => { stored := stored, emitted := none }
  | some currentData =>
      let changes := detectChanges currentData previousData
      let notificationContent := formatNotificationContent changes
      { stored := some currentData, emitted := notificationContent }

namespace Firebase

/-- `CHUNK_SIZE` (monitor-courts-firebase.js:16). -/
def CHUNK_SIZE : Nat := 100

/-- The chunk list built by the loop
`for (let i = 0; i < data.length; i += CHUNK_SIZE)
chunks.push(data.slice(i, i + CHUNK_SIZE))`
(monitor-courts-firebase.js:112-115): iteration `k` takes the slice at
offset `k * CHUNK_SIZE`, and the loop runs `⌈data.length / CHUNK_SIZE⌉`
times. -/
def jsChunks (data : List Court) : List (List Court) :=
  (List.range ((data.length + CHUNK_SIZE - 1) / CHUNK_SIZE)).map
    (fun k => (data.drop (k * CHUNK_SIZE)).take CHUNK_SIZE)

/-- The metadata document written by `saveCurrentData`
(monitor-courts-firebase.js:123-129), minus the server timestamp. -/
structure Metadata where
  totalRecords : Nat
  totalChunks : Nat
  chunkSize : Nat
deriving DecidableEq

/-- The `court_data` collection: the metadata document and the
`chunk_{i}` documents, indexed by `i`. -/
structure FireStore where
  metadata : Option Metadata
  chunk : Nat → Option (List Court)

/-- `saveCurrentData(data)` (monitor-courts-firebase.js:107-154): one
batch that sets the metadata document, sets `chunk_0 .. chunk_{c-1}`
(where `c` is the new chunk count), and deletes `chunk_c .. chunk_{c+9}`
— the cleanup loop runs from `chunks.length` to `chunks.length + 10`.
Documents at indices `≥ c + 10` are not touched by the batch. -/
def saveCurrentData (store : FireStore) (data : List Court) : FireStore :=
  let chunks := jsChunks data
  { metadata := some {
      totalRecords := data.length
      totalChunks := chunks.length
      chunkSize := CHUNK_SIZE }
    chunk := fun i =>
      if i < chunks.length then some (chunks.getD i [])
      else if i < chunks.length + 10 then none
      else store.chunk i }

end Firebase

/-! Concrete datasets used by witnesses and counterexamples. -/

/-- A slot of venue A with three courts available. -/
def courtA3 : Court where
  Venue_Name_EN := "Venue A"
  District_Name_EN := some "Central"
  Available_Date := "2024-01-01"
  Session_Start_Time := "10:00"
  Session_End_Time := "11:00"
  Available_Courts := CourtVal.num 3

/-- The same slot as `courtA3` with zero courts available. -/
def courtA0 : Court := { courtA3 with Available_Courts := CourtVal.num 0 }

/-- The same slot as `courtA3` with a malformed (non-numeric) count. -/
def courtANA : Court := { courtA3 with Available_Courts := CourtVal.str "N/A" }

/-- The same slot as `courtA3` with a negative string count. -/
def courtANeg : Court := { courtA3 with Available_Courts := CourtVal.str "-1" }

/-- A slot of a different venue (distinct identity key from venue A). -/
def courtB1 : Court where
  Venue_Name_EN := "Venue B"
  District_Name_EN := none
  Available_Date := "2024-01-02"
  Session_Start_Time := "09:00"
  Session_End_Time := "10:00"
  Available_Courts := CourtVal.num 1

/-- Current slot for the key-collision counterexample: venue `"Hall"`,
date `"2024-01-01"`, session start `"10:00"`. -/
def curHall : Court where
  Venue_Name_EN := "Hall"
  District_Name_EN := some "D"
  Available_Date := "2024-01-01"
  Session_Start_Time := "10:00"
  Session_End_Time := "11:00"
  Available_Courts := CourtVal.num 2

/-- Previous slot with a different identity tuple — venue `"Hall-2024"`,
date `"01-01"` — whose concatenated key equals `keyOf curHall`. -/
def prvHallDash : Court where
  Venue_Name_EN := "Hall-2024"
  District_Name_EN := some "E"
  Available_Date := "01-01"
  Session_Start_Time := "10:00"
  Session_End_Time := "12:00"
  Available_Courts := CourtVal.num 0

/-- A default change record, used only to read the head of a computed
change list in closed statements. -/
def fallbackChange : Change where
  type := ChangeType.new_availability
  venue := ""
  district := none
  date := ""
  time := ""
  currentCount := 0
  previousCount := 0
  increase := none
  message := ""

/-- A change record carrying a given message, for formatter inputs. -/
def msgChange (s : String) : Change :=
  { fallbackChange with currentCount := 1, message := s }

/-- A five-element change list, for the truncation witness. -/
def fiveChanges : List Change :=
  [msgChange "m1", msgChange "m2", msgChange "m3", msgChange "m4", msgChange "m5"]

/-- A store state holding twelve chunk documents, as left by a previous
save of 1101 records. -/
def twelveChunkStore : Firebase.FireStore where
  metadata := some { totalRecords := 1101, totalChunks := 12, chunkSize := 100 }
  chunk := fun i => if i < 12 then some [] else none

/-! Helper lemmas about the detector. -/

theorem detectStep_eq (m : String → Option Court) (changes : List Change) (c : Court) :
    detectStep m changes c = changes ++ ((m (keyOf c)).bind (changeForPair c)).toList := by
  unfold detectStep
  cases hm : m (keyOf c) with
  | none => simp [hm]
  | some p =>
      cases hc : changeForPair c p with
      | none => simp [hm, hc]
      | some ch => simp [hm, hc]

theorem foldl_detectStep (m : String → Option Court) (l : List Court) :
    ∀ acc : List Change,
      l.foldl (detectStep m) acc =
        acc ++ l.filterMap (fun c => (m (keyOf c)).bind (changeForPair c)) := by
  induction l with
  | nil => intro acc; simp
  | cons c t ih =>
      intro acc
      rw [List.foldl_cons, List.filterMap_cons, detectStep_eq]
      cases h : (m (keyOf c)).bind (changeForPair c) with
      | none => rw [ih]; simp
      | some ch => rw [ih]; simp

theorem detectChanges_eq_filterMap (currentData prevList : List Court) :
    detectChanges currentData (some prevList) =
      currentData.filterMap
        (fun c => (buildPreviousMap prevList (keyOf c)).bind (changeForPair c)) := by
  show currentData.foldl (detectStep (buildPreviousMap prevList)) [] = _
  rw [foldl_detectStep]
  simp

theorem foldl_mapStep_notin (l : List Court) (k : String) :
    ∀ m0 : String → Option Court, (∀ c ∈ l, keyOf c ≠ k) → (l.foldl mapStep m0) k = m0 k := by
  induction l with
  | nil => intro m0 _; rfl
  | cons a t ih =>
      intro m0 h
      rw [List.foldl_cons, ih (mapStep m0 a) (fun c hc => h c (List.mem_cons_of_mem a hc))]
      unfold mapStep
      rw [if_neg (fun he => h a (List.mem_cons_self a t) he.symm)]

theorem foldl_mapStep_eq_some (l : List Court) (k : String) (p : Court) :
    ∀ m0 : String → Option Court,
      (l.foldl mapStep m0) k = some p → (p ∈ l ∧ keyOf p = k) ∨ m0 k = some p := by
  induction l with
  | nil => intro m0 h; exact Or.inr h
  | cons a t ih =>
      intro m0 h
      rw [List.foldl_cons] at h
      rcases ih (mapStep m0 a) h with hmem | hm0
      · exact Or.inl ⟨List.mem_cons_of_mem a hmem.1, hmem.2⟩
      · unfold mapStep at hm0
        by_cases hk : k = keyOf a
        · rw [if_pos hk] at hm0
          injection hm0 with hap
          exact Or.inl ⟨hap ▸ List.mem_cons_self a t, hap ▸ hk.symm⟩
        · rw [if_neg hk] at hm0
          exact Or.inr hm0

theorem buildPreviousMap_eq_some (l : List Court) (k : String) (p : Court)
    (h : buildPreviousMap l k = some p) : p ∈ l ∧ keyOf p = k := by
  rcases foldl_mapStep_eq_some l k p (fun _ => none) h with hmem | hnone
  · exact hmem
  · cases hnone

theorem foldl_mapStep_self (l : List Court) :
    ∀ m0 : String → Option Court, (l.map keyOf).Nodup →
      ∀ c ∈ l, (l.foldl mapStep m0) (keyOf c) = some c := by
  induction l with
  | nil => intro _ _ c hc; cases hc
  | cons a t ih =>
      intro m0 hnd c hc
      rw [List.map_cons, List.nodup_cons] at hnd
      obtain ⟨hna, hndt⟩ := hnd
      rw [List.foldl_cons]
      rcases List.mem_cons.mp hc with rfl | hct
      · rw [foldl_mapStep_notin t (keyOf c) (mapStep m0 c)
          (fun x hx hkx => hna (hkx ▸ List.mem_map_of_mem keyOf hx))]
        unfold mapStep
        rw [if_pos rfl]
      · exact ih (mapStep m0 a) hndt c hct

theorem buildPreviousMap_self (l : List Court) (hnd : (l.map keyOf).Nodup)
    (c : Court) (hc : c ∈ l) : buildPreviousMap l (keyOf c) = some c :=
  foldl_mapStep_self l (fun _ => none) hnd c hc

theorem foldl_mapStep_mono (l : List Court) :
    ∀ (m0 : String → Option Court) (k : String) (q : Court), m0 k = some q →
      ∃ r, (l.foldl mapStep m0) k = some r := by
  induction l with
  | nil => intro m0 k q h; exact ⟨q, h⟩
  | cons a t ih =>
      intro m0 k q h
      rw [List.foldl_cons]
      by_cases hk : k = keyOf a
      · exact ih (mapStep m0 a) k a (by unfold mapStep; rw [if_pos hk])
      · exact ih (mapStep m0 a) k q (by unfold mapStep; rw [if_neg hk]; exact h)

theorem foldl_mapStep_exists_of_mem (l : List Court) (k : String) (p : Court) :
    ∀ m0 : String → Option Court, p ∈ l → keyOf p = k →
      ∃ r, (l.foldl mapStep m0) k = some r := by
  induction l with
  | nil => intro m0 hp _; cases hp
  | cons a t ih =>
      intro m0 hp hk
      rw [List.foldl_cons]
      rcases List.mem_cons.mp hp with rfl | hpt
      · exact foldl_mapStep_mono t (mapStep m0 p) k p (by unfold mapStep; rw [if_pos hk.symm])
      · exact ih (mapStep m0 a) hpt hk

theorem buildPreviousMap_exists_of_mem (l : List Court) (k : String) (p : Court)
    (hp : p ∈ l) (hk : keyOf p = k) : ∃ r, buildPreviousMap l k = some r :=
  foldl_mapStep_exists_of_mem l k p (fun _ => none) hp hk

theorem changeForPair_self (c : Court) : changeForPair c c = none := by
  unfold changeForPair
  cases h : parseCount c.Available_Courts with
  | nan => rfl
  | int n =>
      dsimp only
      rw [if_neg (by omega), if_neg (by omega)]

theorem changeForPair_spec (c p : Court) (ch : Change)
    (h : changeForPair c p = some ch) :
    0 ≤ ch.previousCount ∧ ch.previousCount < ch.currentCount ∧ 1 ≤ ch.currentCount ∧
      (ch.type = ChangeType.new_availability ↔ ch.previousCount = 0) ∧
      (ch.type = ChangeType.increased_availability ↔ 0 < ch.previousCount) := by
  unfold changeForPair at h
  cases hc : parseCount c.Available_Courts with
  | nan =>
      rw [hc] at h
      dsimp only at h
      cases h
  | int ca =>
      cases hp : parseCount p.Available_Courts with
      | nan =>
          rw [hc, hp] at h
          dsimp only at h
          cases h
      | int pa =>
          rw [hc, hp] at h
          dsimp only at h
          by_cases h1 : ca > 0 ∧ pa = 0
          · rw [if_pos h1] at h
            injection h with hch
            subst hch
            dsimp only
            refine ⟨by omega, by omega, by omega, by simp, by simp⟩
          · rw [if_neg h1] at h
            by_cases h2 : ca > pa ∧ pa > 0
            · rw [if_pos h2] at h
              injection h with hch
              subst hch
              dsimp only
              refine ⟨by omega, by omega, by omega, ?_, ?_⟩
              · exact ⟨fun habs => absurd habs (by decide), fun hpa => absurd hpa (by omega)⟩
              · exact ⟨fun _ => by omega, fun _ => rfl⟩
            · rw [if_neg h2] at h
              cases h

/-! Claim theorems. -/

/-- C1 counterexample: a dataset with a duplicate identity key where the
second (last-write-wins) occurrence has count 0 and the first has count 3.
Diffing that dataset against itself emits a change, so `detect(D, D)` is
not the empty list for every dataset with duplicate keys. -/
theorem detect_self_dup_ne_nil :
    detectChanges [courtA3, courtA0] (some [courtA3, courtA0]) ≠ [] := by decide

/-- C1 (amended): for every dataset whose identity-key strings are
pairwise distinct, diffing the dataset against itself yields no changes.
With duplicate keys the last-write-wins previous lookup can pair a
current slot with a different same-key slot, and the claim fails. -/
theorem detect_self_nodup_eq_nil (D : List Court) (h : (D.map keyOf).Nodup) :
    detectChanges D (some D) = [] := by
  rw [detectChanges_eq_filterMap]
  rw [List.filterMap_eq_nil_iff]
  intro c hc
  rw [buildPreviousMap_self D h c hc]
  exact changeForPair_self c

/-- C1 witness: a two-slot dataset with distinct keys, self-diffed. -/
theorem detect_self_nodup_eq_nil_witness :
    ([courtA3, courtB1].map keyOf).Nodup ∧
      detectChanges [courtA3, courtB1] (some [courtA3, courtB1]) = [] :=
  ⟨by decide, detect_self_nodup_eq_nil [courtA3, courtB1] (by decide)⟩

/-- C2 counterexample: with a malformed previous count (`"N/A"`) and a
positive current count, the detector emits nothing, whereas the same
pair with previous count 0 emits a change — so a malformed previous
count is not treated as 0. -/
theorem malformed_prev_count_no_change :
    detectChanges [courtA3] (some [courtANA]) = [] ∧
      detectChanges [courtA3] (some [courtA0]) ≠ [] :=
  ⟨by decide, by decide⟩

/-- C2 (amended): a missing/null count and the empty string are treated
as 0, but a malformed non-numeric string parses to `NaN`, and a matched
pair with `NaN` on either side emits no change at all (every comparison
with `NaN` is false), rather than being classified as if the count
were 0. -/
theorem count_parsing_policy :
    parseCount CourtVal.missing = JSNum.int 0 ∧
    parseCount (CourtVal.str "") = JSNum.int 0 ∧
    (∀ currentCourt previousCourt : Court,
      parseCount previousCourt.Available_Courts = JSNum.nan →
      changeForPair currentCourt previousCourt = none) ∧
    (∀ currentCourt previousCourt : Court,
      parseCount currentCourt.Available_Courts = JSNum.nan →
      changeForPair currentCourt previousCourt = none) := by
  refine ⟨rfl, rfl, ?_, ?_⟩
  · intro c p hp
    unfold changeForPair
    cases hc : parseCount c.Available_Courts <;> rw [hp]
  · intro c p hc
    unfold changeForPair
    rw [hc]

/-- C2 witness: the malformed previous count `"N/A"` parses to `NaN` and
the matched pair emits nothing. -/
theorem count_parsing_policy_witness :
    parseCount courtANA.Available_Courts = JSNum.nan ∧
      changeForPair courtA3 courtANA = none :=
  ⟨by decide, count_parsing_policy.2.2.1 courtA3 courtANA (by decide)⟩

/-- C3 counterexample: `curHall` (venue `"Hall"`, date `"2024-01-01"`)
and `prvHallDash` (venue `"Hall-2024"`, date `"01-01"`) have different
identity tuples, yet their concatenated keys collide and the detector
compares them and emits a change — so matching is not exactly identity
tuple agreement. -/
theorem key_collision_match :
    (curHall.Venue_Name_EN, curHall.Available_Date, curHall.Session_Start_Time) ≠
      (prvHallDash.Venue_Name_EN, prvHallDash.Available_Date, prvHallDash.Session_Start_Time) ∧
    detectChanges [curHall] (some [prvHallDash]) ≠ [] :=
  ⟨by decide, by decide⟩

/-- C3 (amended): the detector matches exactly by equality of the
concatenated key string `venue ++ "-" ++ date ++ "-" ++ sessionStart`:
every matched previous slot comes from the previous dataset and has the
same key as the current slot (soundness); whenever the previous dataset
contains a slot with the current slot's key, the lookup does return a
match with that key (completeness); agreement on the identity tuple
implies key equality, hence a match when such a slot is present; and
sessionEnd and district never influence the key.  Distinct tuples can
however collide on the key when fields contain the separator. -/
theorem matching_by_key_string :
    (∀ (prevList : List Court) (c p : Court),
      buildPreviousMap prevList (keyOf c) = some p → p ∈ prevList ∧ keyOf p = keyOf c) ∧
    (∀ (prevList : List Court) (c p : Court), p ∈ prevList → keyOf p = keyOf c →
      ∃ q, buildPreviousMap prevList (keyOf c) = some q ∧ keyOf q = keyOf c) ∧
    (∀ c p : Court, c.Venue_Name_EN = p.Venue_Name_EN →
      c.Available_Date = p.Available_Date →
      c.Session_Start_Time = p.Session_Start_Time → keyOf c = keyOf p) ∧
    (∀ (c : Court) (e1 e2 : String) (d1 d2 : Option String),
      keyOf { c with Session_End_Time := e1, District_Name_EN := d1 } =
        keyOf { c with Session_End_Time := e2, District_Name_EN := d2 }) := by
  refine ⟨?_, ?_, ?_, ?_⟩
  · intro prevList c p h
    exact buildPreviousMap_eq_some prevList (keyOf c) p h
  · intro prevList c p hp hk
    rcases buildPreviousMap_exists_of_mem prevList (keyOf c) p hp hk with ⟨q, hq⟩
    exact ⟨q, hq, (buildPreviousMap_eq_some prevList (keyOf c) q hq).2⟩
  · intro c p hv hd hs
    unfold keyOf
    rw [hv, hd, hs]
  · intro c e1 e2 d1 d2
    rfl

/-- C3 witness: the colliding pair is matched by the key lookup, and the
same-key previous slot guarantees the lookup succeeds. -/
theorem matching_by_key_string_witness :
    (buildPreviousMap [prvHallDash] (keyOf curHall) = some prvHallDash ∧
      (prvHallDash ∈ [prvHallDash] ∧ keyOf prvHallDash = keyOf curHall)) ∧
    (∃ q, buildPreviousMap [prvHallDash] (keyOf curHall) = some q ∧
      keyOf q = keyOf curHall) :=
  ⟨⟨by decide, matching_by_key_string.1 [prvHallDash] curHall prvHallDash (by decide)⟩,
    matching_by_key_string.2.1 [prvHallDash] curHall prvHallDash (by decide) (by decide)⟩

/-- C4 counterexample: previous count `"-1"` parses to `-1` and current
count 0 parses to 0, so the parsed counts satisfy current > previous,
yet the detector emits no change — the increase falls through both
branches when the previous count is negative. -/
theorem negative_prev_increase_unclassified :
    parseCount courtA0.Available_Courts = JSNum.int 0 ∧
    parseCount courtANeg.Available_Courts = JSNum.int (-1) ∧
    (0 : Int) > -1 ∧
    detectChanges [courtA0] (some [courtANeg]) = [] :=
  ⟨by decide, by decide, by decide, by decide⟩

/-- C4 (amended): for every matched pair whose parsed counts are
integers with current > previous ≥ 0, exactly one change is emitted,
with kind NewAvailability exactly when the previous count is 0 and
IncreasedAvailability exactly when it is positive. -/
theorem increase_classified_exactly_once (currentCourt previousCourt : Court)
    (ca pa : Int)
    (hc : parseCount currentCourt.Available_Courts = JSNum.int ca)
    (hp : parseCount previousCourt.Available_Courts = JSNum.int pa)
    (hgt : pa < ca) (hge : 0 ≤ pa) :
    ∃ ch : Change, changeForPair currentCourt previousCourt = some ch ∧
      (ch.type = ChangeType.new_availability ↔ pa = 0) ∧
      (ch.type = ChangeType.increased_availability ↔ 0 < pa) := by
  unfold changeForPair
  rw [hc, hp]
  dsimp only
  by_cases h0 : pa = 0
  · subst h0
    rw [if_pos ⟨by omega, rfl⟩]
    exact ⟨_, rfl, by simp, by simp⟩
  · rw [if_neg (by omega), if_pos ⟨by omega, by omega⟩]
    refine ⟨_, rfl, ?_, ?_⟩
    · dsimp only
      exact ⟨fun habs => ChangeType.noConfusion habs, fun hpa => absurd hpa h0⟩
    · dsimp only
      exact ⟨fun _ => by omega, fun _ => rfl⟩

/-- C4 witness: counts 3 over 0 are classified (as NewAvailability). -/
theorem increase_classified_exactly_once_witness :
    parseCount courtA3.Available_Courts = JSNum.int 3 ∧
    parseCount courtA0.Available_Courts = JSNum.int 0 ∧
    (0 : Int) < 3 ∧ (0 : Int) ≤ 0 ∧
    (∃ ch : Change, changeForPair courtA3 courtA0 = some ch ∧
      (ch.type = ChangeType.new_availability ↔ (0 : Int) = 0) ∧
      (ch.type = ChangeType.increased_availability ↔ (0 : Int) < 0)) :=
  ⟨by decide, by decide, by decide, by decide,
    increase_classified_exactly_once courtA3 courtA0 3 0 (by decide) (by decide)
      (by decide) (by decide)⟩

/-- C5: the detector is one pass over the current dataset in its
original order: its output is exactly the in-order `filterMap` of the
per-slot emission over the current dataset, so the relative order of
emitted changes equals the current dataset's iteration order restricted
to emitting elements, with no re-sorting. -/
theorem detect_order_preserving (currentData prevList : List Court) :
    detectChanges currentData (some prevList) =
      currentData.filterMap
        (fun currentCourt =>
          (buildPreviousMap prevList (keyOf currentCourt)).bind (changeForPair currentCourt)) :=
  detectChanges_eq_filterMap currentData prevList

/-- C6: for two or more changes, the title carries the total count, the
body renders the first `min(N, 3)` messages joined by blank lines plus
(only when `N > 3`) the literal `"... and {N-3} more changes"` line, and
the `changes` field carries the full list. -/
theorem format_multi_truncation (changes : List Change) (h : 2 ≤ changes.length) :
    formatNotificationContent changes = some {
      title := "🏸 " ++ toString changes.length ++ " Courts Available!"
      body := String.intercalate "\n\n" ((changes.take 3).map (fun change => change.message)) ++
        (if changes.length > 3 then
          "\n\n... and " ++ toString (changes.length - 3) ++ " more changes"
        else "")
      changes := changes } := by
  match changes with
  | [] => simp at h
  | [a] => simp at h
  | a :: b :: u =>
      unfold formatNotificationContent
      dsimp only
      by_cases h3 : (a :: b :: u).length > 3
      · rw [if_pos h3, if_pos h3]
        simp [String.append_assoc]
      · rw [if_neg h3, if_neg h3]
        rw [String.append_empty]

/-- C6 witness: a five-change list renders three messages plus the
"... and 2 more changes" line and keeps all five changes. -/
theorem format_multi_truncation_witness :
    2 ≤ fiveChanges.length ∧
    formatNotificationContent fiveChanges = some {
      title := "🏸 " ++ toString fiveChanges.length ++ " Courts Available!"
      body := String.intercalate "\n\n" ((fiveChanges.take 3).map (fun change => change.message)) ++
        (if fiveChanges.length > 3 then
          "\n\n... and " ++ toString (fiveChanges.length - 3) ++ " more changes"
        else "")
      changes := fiveChanges } :=
  ⟨by decide, format_multi_truncation fiveChanges (by decide)⟩

/-- C7: the formatter returns none on an empty change list, and on a
singleton list returns the fixed banner title with the change's message
as the body, verbatim. -/
theorem format_empty_and_singleton :
    formatNotificationContent [] = none ∧
    ∀ change : Change,
      formatNotificationContent [change] =
        some { title := "🏸 Court Available!", body := change.message, changes := [change] } :=
  ⟨rfl, fun _ => rfl⟩

/-- C8: in one driver cycle, a failed fetch leaves the stored snapshot
unchanged (and emits nothing), while a successful fetch always stores
the fetched dataset — also when no changes were detected and on the
first run (any prior stored state). -/
theorem cycle_persists_only_on_fetch_success (stored : Option (List Court)) :
    ((runCycle stored none).stored = stored ∧ (runCycle stored none).emitted = none) ∧
    (∀ currentData : List Court, (runCycle stored (some currentData)).stored = some currentData) :=
  ⟨⟨rfl, rfl⟩, fun _ => rfl⟩

/-- C9 counterexample: shrinking from twelve chunks to one leaves
`chunk_11` in place — the save deletes only ten trailing chunk slots,
not every now-unused trailing chunk for any amount of shrinkage. -/
theorem shrink_beyond_window_orphan :
    (Firebase.jsChunks [courtA3]).length = 1 ∧
    (Firebase.saveCurrentData twelveChunkStore [courtA3]).metadata =
      some { totalRecords := 1, totalChunks := 1, chunkSize := 100 } ∧
    (Firebase.saveCurrentData twelveChunkStore [courtA3]).chunk 11 = some [] :=
  ⟨by decide, by decide, by decide⟩

/-- C9 (amended): the save deletes exactly the ten chunk slots directly
above the new chunk count and leaves every higher slot untouched, so all
now-unused trailing chunks are removed only when the chunk count shrinks
by at most ten. -/
theorem save_deletes_ten_trailing (store : Firebase.FireStore) (data : List Court) (i : Nat) :
    ((Firebase.jsChunks data).length ≤ i → i < (Firebase.jsChunks data).length + 10 →
      (Firebase.saveCurrentData store data).chunk i = none) ∧
    ((Firebase.jsChunks data).length + 10 ≤ i →
      (Firebase.saveCurrentData store data).chunk i = store.chunk i) := by
  unfold Firebase.saveCurrentData
  dsimp only
  constructor
  · intro h1 h2
    rw [if_neg (by omega), if_pos (by omega)]
  · intro h
    rw [if_neg (by omega), if_neg (by omega)]

/-- C9 witness: saving an empty dataset over the twelve-chunk store
deletes slot 5 (inside the window) and leaves slot 15 untouched. -/
theorem save_deletes_ten_trailing_witness :
    (Firebase.jsChunks ([] : List Court)).length ≤ 5 ∧
    5 < (Firebase.jsChunks ([] : List Court)).length + 10 ∧
    (Firebase.saveCurrentData twelveChunkStore []).chunk 5 = none ∧
    (Firebase.saveCurrentData twelveChunkStore []).chunk 15 = twelveChunkStore.chunk 15 :=
  ⟨by decide, by decide,
    (save_deletes_ten_trailing twelveChunkStore [] 5).1 (by decide) (by decide),
    (save_deletes_ten_trailing twelveChunkStore [] 15).2 (by decide)⟩

/-- C10: every change emitted by the detector has
currentCount > previousCount ≥ 0, currentCount ≥ 1, kind NewAvailability
exactly when previousCount = 0 and IncreasedAvailability exactly when
previousCount > 0; no emitted change records a non-increase. -/
theorem emitted_change_invariant (currentData : List Court)
    (previousData : Option (List Court)) (ch : Change)
    (h : ch ∈ detectChanges currentData previousData) :
    0 ≤ ch.previousCount ∧ ch.previousCount < ch.currentCount ∧ 1 ≤ ch.currentCount ∧
      (ch.type = ChangeType.new_availability ↔ ch.previousCount = 0) ∧
      (ch.type = ChangeType.increased_availability ↔ 0 < ch.previousCount) := by
  cases previousData with
  | none => simp [detectChanges] at h
  | some prevList =>
      rw [detectChanges_eq_filterMap] at h
      rcases List.mem_filterMap.mp h with ⟨c, _, hbind⟩
      rcases Option.bind_eq_some.mp hbind with ⟨p, _, hpair⟩
      exact changeForPair_spec c p ch hpair

/-- C10 witness: the invariant holds at the change emitted for a 0 → 3
transition. -/
theorem emitted_change_invariant_witness :
    ((detectChanges [courtA3] (some [courtA0])).headD fallbackChange ∈
      detectChanges [courtA3] (some [courtA0])) ∧
    (0 ≤ ((detectChanges [courtA3] (some [courtA0])).headD fallbackChange).previousCount ∧
      ((detectChanges [courtA3] (some [courtA0])).headD fallbackChange).previousCount <
        ((detectChanges [courtA3] (some [courtA0])).headD fallbackChange).currentCount ∧
      1 ≤ ((detectChanges [courtA3] (some [courtA0])).headD fallbackChange).currentCount ∧
      (((detectChanges [courtA3] (some [courtA0])).headD fallbackChange).type =
          ChangeType.new_availability ↔
        ((detectChanges [courtA3] (some [courtA0])).headD fallbackChange).previousCount = 0) ∧
      (((detectChanges [courtA3] (some [courtA0])).headD fallbackChange).type =
          ChangeType.increased_availability ↔
        0 < ((detectChanges [courtA3] (some [courtA0])).headD fallbackChange).previousCount)) :=
  ⟨by decide,
    emitted_change_invariant [courtA3] (some [courtA0]) _ (by decide)⟩

end CourtMonitor
